import Mathlib

/-!
# Verification of the api_yamdb core (auth flow, authorization, review invariants)

Shallow embedding of `api/permissions.py`, `api/views.py`, `api/serializers.py`
and `reviews/models.py`.  Persistent stores (the Django ORM tables behind
`User`, `EmailAndCode`, `Review`) are modelled as lists of records; each view
function becomes a pure function from (store, clock, request data) to
(HTTP-level outcome, new store).  Machine integers do not occur; timestamps
are `Nat` seconds.
-/

/-- `reviews/models.py` ROLES: the closed role enumeration
`{user, moderator, admin}` stored in `User.role` (default `user`). -/
inductive UserRole
  | user
  | moderator
  | admin
deriving DecidableEq, Repr

/-- HTTP methods that reach the permission classes. -/
inductive Method
  | GET
  | HEAD
  | OPTIONS
  | POST
  | PUT
  | PATCH
  | DELETE
deriving DecidableEq, Repr

/-- `rest_framework.permissions.SAFE_METHODS` = ('GET', 'HEAD', 'OPTIONS'). -/
def SAFE_METHODS : List Method := [Method.GET, Method.HEAD, Method.OPTIONS]

/-- The resolved `request.user` as the permission classes read it:
`is_authenticated` (False for `AnonymousUser`), `role`, `is_staff`, and an
identity used for the `request.user == obj.author` comparison. -/
structure Actor where
  is_authenticated : Bool
  role : UserRole
  is_staff : Bool
  uid : Nat
deriving DecidableEq, Repr

/-- `api/permissions.py` lines 5-12, `AdminModifyOrReadOnlyPermission.has_permission`:
`request.method in SAFE_METHODS or request.user.is_authenticated`. -/
def AdminModifyOrReadOnlyPermission.has_permission (m : Method) (u : Actor) : Bool :=
  decide (m ∈ SAFE_METHODS) || u.is_authenticated

/-- `api/permissions.py` lines 34-39, `IsAdmin.has_permission`.  The Python
function has no `else` branch: for an unauthenticated caller with an unsafe
method, control falls off the end and the function returns `None`.  The
codomain is therefore `Option Bool`, with `none` standing for Python `None`. -/
def IsAdmin.has_permission (m : Method) (u : Actor) : Option Bool :=
  if m ∈ SAFE_METHODS then some true
  else if u.is_authenticated then some (u.is_staff || u.role == UserRole.admin)
  else none

/-- `api/permissions.py` lines 42-54, `ReviewAndComment.has_object_permission`.
`not request.user.is_anonymous` is `is_authenticated`; `obj.author` is the
author identity of the target review/comment. -/
def ReviewAndComment.has_object_permission
    (m : Method) (act : String) (u : Actor) (objAuthor : Nat) : Bool :=
  if m == Method.POST || act == "create" then
    u.is_authenticated
  else if m == Method.PATCH || m == Method.DELETE then
    u.uid == objAuthor || u.role == UserRole.admin || u.role == UserRole.moderator
  else if m ∈ SAFE_METHODS then
    true
  else
    false

/-- `rest_framework.permissions.IsAuthenticatedOrReadOnly.has_permission`. -/
def IsAuthenticatedOrReadOnly.has_permission (m : Method) (u : Actor) : Bool :=
  decide (m ∈ SAFE_METHODS) || u.is_authenticated

/-- Object-level decision on a review/comment endpoint:
`permission_classes = [ReviewAndComment, IsAuthenticatedOrReadOnly]`
(`views.py` lines 112 and 149).  DRF conjoins every class's
`has_permission` and then every class's `has_object_permission`;
`ReviewAndComment.has_permission` and
`IsAuthenticatedOrReadOnly.has_object_permission` are the `BasePermission`
defaults (`True`). -/
def review_object_decision (m : Method) (act : String) (u : Actor) (objAuthor : Nat) : Bool :=
  IsAuthenticatedOrReadOnly.has_permission m u
    && ReviewAndComment.has_object_permission m act u objAuthor

/-- `api/serializers.py` lines 16-19: the field list `UserSerializer` exposes
on every read of a `User`. -/
def UserSerializer.fields : List String :=
  ["username", "first_name", "last_name", "bio", "email", "role"]

/-- DRF `Serializer.save(**kwargs)` semantics for one field: keyword
arguments passed by the view override the request's validated data; on an
update, a field present in neither keeps the instance's current value. -/
def serializer_save_role (instanceRole : UserRole)
    (dataRole : Option UserRole) (kwargRole : Option UserRole) : UserRole :=
  match kwargRole with
  | some r => r
  | none => dataRole.getD instanceRole

/-- `api/views.py` lines 53-55 (`UserViewSet.me`, PATCH branch): the role
stored after a self-edit.  The view calls `serializer.save(role=user.role, ...)`,
so the keyword pins the role to the current value whatever the body carried. -/
def UserViewSet.me_patch_role (current : UserRole) (dataRole : Option UserRole) : UserRole :=
  serializer_save_role current dataRole (some current)

/-- `api/views.py` lines 37-41 (`UserViewSet.perform_create`): the role stored
for a newly created account; `role` absent from the validated data means
`serializer.save(role=UserRole.USER)`. -/
def UserViewSet.perform_create_role (dataRole : Option UserRole) : UserRole :=
  match dataRole with
  | none => UserRole.user
  | some r => r

/-- A row of the `User` table as the auth flow reads it: `username` and
`email`, each globally unique (`reviews/models.py` lines 39-50). -/
structure UserRow where
  username : String
  email : String
deriving DecidableEq, Repr

/-- `reviews/models.py` lines 231-240, `EmailAndCode`: a pending confirmation
record `{username, email (unique), confirm_code, expire_date}`. -/
structure EmailAndCode where
  username : String
  email : String
  confirm_code : String
  expire_date : Nat
deriving DecidableEq, Repr

/-- The two durable stores the auth endpoints touch. -/
structure AuthState where
  users : List UserRow
  codes : List EmailAndCode
deriving DecidableEq, Repr

/-- `EmailAndCode.objects.filter(expire_date__lte=timezone.now()).delete()`
(`views.py` lines 62 and 83): the rows that survive the lazy purge. -/
def purgeExpired (codes : List EmailAndCode) (now : Nat) : List EmailAndCode :=
  codes.filter (fun r => decide (now < r.expire_date))

/-- Outcome of `POST /auth/signup` (`confirm_email`). -/
inductive SignupResult
  | ok (username email : String)
  | validationError
  | mailException
deriving DecidableEq, Repr

/-- `api/views.py` lines 80-106 (`confirm_email`) together with
`ConfirmEmailSerializer` (`serializers.py` lines 55-90).  Steps in source
order: purge expired rows; field validation (`validate_username`: reject
`"me"` or an existing username; `validate_email`: reject an email that has a
live `EmailAndCode` row or an existing `User`); eager
`User.objects.create_user`; `send_mail` (no try/except — a failure
propagates before the pending record is saved, modelled by `mailOk`);
`serializer.save(confirm_code=..., expire_date=now+5min)`, whose `create`
updates an existing row for the email in place and otherwise inserts a new
one. -/
def confirm_email (s : AuthState) (now : Nat) (username email code : String)
    (mailOk : Bool) : SignupResult × AuthState :=
  let codes1 := purgeExpired s.codes now
  let s1 : AuthState := { s with codes := codes1 }
  if username == "me" || s1.users.any (fun x => x.username == username) then
    (SignupResult.validationError, s1)
  else if codes1.any (fun r => r.email == email)
      || s1.users.any (fun x => x.email == email) then
    (SignupResult.validationError, s1)
  else
    let s2 : AuthState := { s1 with users := s1.users ++ [⟨username, email⟩] }
    if !mailOk then
      (SignupResult.mailException, s2)
    else
      let codes2 :=
        if codes1.any (fun r => r.email == email) then
          codes1.map (fun r =>
            if r.email == email then
              { r with confirm_code := code, expire_date := now + 300 }
            else r)
        else
          codes1 ++ [⟨username, email, code, now + 300⟩]
      (SignupResult.ok username email, { s2 with codes := codes2 })

/-- Outcome of `POST /auth/token` (`get_token`). -/
inductive TokenResult
  | token (username : String)
  | notFound
  | invalid
deriving DecidableEq, Repr

/-- Whether a `TokenResult` carries a minted token. -/
def TokenResult.isToken : TokenResult → Bool
  | TokenResult.token _ => true
  | _ => false

/-- `api/views.py` lines 59-77 (`get_token`) together with
`GetTokenSerializer` (`serializers.py` lines 32-52).  Steps in source order:
purge expired rows; `validate_username` raises `Http404` when no `User` has
the username; `validate` raises `ValidationError` when no `EmailAndCode` row
matches `(username, confirm_code)` exactly; on success the matching row is
fetched, deleted, and an access token is minted for the user. -/
def get_token (s : AuthState) (now : Nat) (username code : String) :
    TokenResult × AuthState :=
  let codes1 := purgeExpired s.codes now
  let s1 : AuthState := { s with codes := codes1 }
  if !(s1.users.any (fun x => x.username == username)) then
    (TokenResult.notFound, s1)
  else if !(codes1.any (fun r => r.username == username && r.confirm_code == code)) then
    (TokenResult.invalid, s1)
  else
    let codes2 := codes1.eraseP (fun r => r.username == username && r.confirm_code == code)
    (TokenResult.token username, { s1 with codes := codes2 })

/-- C1: the parts of the claim the code satisfies — the role defaults to
`user` at creation (`perform_create`) and a `PATCH /users/me/` self-edit never
changes the role field — together with the evaluation showing the part it
violates: the permission guarding `PATCH /users/{username}/`
(`AdminModifyOrReadOnlyPermission`) passes for an authenticated actor whose
role is plain `user`, so a mutation of another user's account does not
require an admin caller. -/
theorem role_gate_evaluation :
    UserViewSet.perform_create_role none = UserRole.user ∧
    (∀ (current : UserRole) (dataRole : Option UserRole),
      UserViewSet.me_patch_role current dataRole = current) ∧
    AdminModifyOrReadOnlyPermission.has_permission Method.PATCH
      ⟨true, UserRole.user, false, 3⟩ = true := by
  refine ⟨rfl, ?_, rfl⟩
  intro current dataRole
  cases dataRole <;> rfl

/-- C6 counterexample: for an unauthenticated actor sending an unsafe method
to a category/genre/title endpoint, `IsAdmin.has_permission` does not return
the boolean `False` the claim promises — it returns Python `None`
(modelled `none`). -/
theorem isadmin_none_example :
    IsAdmin.has_permission Method.POST ⟨false, UserRole.user, false, 0⟩ = none ∧
    IsAdmin.has_permission Method.POST ⟨false, UserRole.user, false, 0⟩ ≠ some false := by
  constructor
  · rfl
  · decide

/-- C6 amended: the decision is total and fail-closed in effect — no
unmatched (actor, method) combination ever yields an allow — but
`IsAdmin.has_permission` returns `None` (a non-boolean falsy), not `False`,
for an unauthenticated actor with an unsafe method; an allow from `IsAdmin`
requires a safe method or an authenticated staff/admin caller, and
`ReviewAndComment.has_object_permission` returns an explicit `false` for the
unmatched PUT case. -/
theorem fail_closed_effective :
    (∀ (m : Method) (u : Actor), m ∉ SAFE_METHODS → u.is_authenticated = false →
      IsAdmin.has_permission m u = none) ∧
    (∀ (m : Method) (u : Actor), IsAdmin.has_permission m u = some true →
      m ∈ SAFE_METHODS ∨
        (u.is_authenticated = true ∧ (u.is_staff || u.role == UserRole.admin) = true)) ∧
    (∀ (u : Actor) (objAuthor : Nat) (act : String), (act == "create") = false →
      ReviewAndComment.has_object_permission Method.PUT act u objAuthor = false) := by
  refine ⟨?_, ?_, ?_⟩
  · intro m u hm hu
    simp [IsAdmin.has_permission, hm, hu]
  · intro m u h
    unfold IsAdmin.has_permission at h
    by_cases hm : m ∈ SAFE_METHODS
    · exact Or.inl hm
    · simp only [hm, if_false] at h
      by_cases hu : u.is_authenticated = true
      · simp only [hu, if_true, Option.some.injEq] at h
        exact Or.inr ⟨hu, h⟩
      · simp [hu] at h
  · intro u objAuthor act hact
    simp [ReviewAndComment.has_object_permission, hact, SAFE_METHODS]

/-- C6 amended, witness: the amended statement evaluated at the anonymous
POST on a category endpoint and at an authenticated PUT on a review. -/
theorem fail_closed_effective_witness :
    IsAdmin.has_permission Method.POST ⟨false, UserRole.user, false, 0⟩ = none ∧
    ReviewAndComment.has_object_permission Method.PUT "update"
      ⟨true, UserRole.user, false, 1⟩ 2 = false := by
  constructor
  · exact fail_closed_effective.1 Method.POST ⟨false, UserRole.user, false, 0⟩ (by decide) rfl
  · exact fail_closed_effective.2.2 ⟨true, UserRole.user, false, 1⟩ 2 "update" (by decide)

/-- C7: for an authenticated actor, a PATCH or DELETE on a review/comment is
allowed exactly when the actor authored the target or has role admin or
moderator. -/
theorem review_modify_policy (m : Method) (act : String) (u : Actor) (objAuthor : Nat)
    (hauth : u.is_authenticated = true)
    (hm : m = Method.PATCH ∨ m = Method.DELETE)
    (hact : (act == "create") = false) :
    review_object_decision m act u objAuthor =
      (u.uid == objAuthor || u.role == UserRole.admin || u.role == UserRole.moderator) := by
  rcases hm with hm | hm <;> subst hm <;>
    simp [review_object_decision, IsAuthenticatedOrReadOnly.has_permission,
      ReviewAndComment.has_object_permission, hauth, hact]

/-- C7 witness: a moderator deleting someone else's review is allowed. -/
theorem review_modify_policy_witness :
    review_object_decision Method.DELETE "destroy" ⟨true, UserRole.moderator, false, 7⟩ 9 =
      ((7 : Nat) == 9 || UserRole.moderator == UserRole.admin
        || UserRole.moderator == UserRole.moderator) :=
  review_modify_policy Method.DELETE "destroy" ⟨true, UserRole.moderator, false, 7⟩ 9
    rfl (Or.inr rfl) (by decide)

/-- C10: the permission guarding the `/users/` routes depends only on
(method safe?, actor authenticated?): every safe-method request is allowed
even for an anonymous actor, every authenticated actor passes for any method
regardless of role or staff flag, the decision is invariant under changing
anything but `is_authenticated`, and the serializer used on those routes
exposes the `email` and `role` fields. -/
theorem users_permission_shape :
    (∀ (m : Method) (u : Actor), m ∈ SAFE_METHODS →
      AdminModifyOrReadOnlyPermission.has_permission m u = true) ∧
    (∀ (m : Method) (u : Actor), u.is_authenticated = true →
      AdminModifyOrReadOnlyPermission.has_permission m u = true) ∧
    (∀ (m : Method) (u v : Actor), u.is_authenticated = v.is_authenticated →
      AdminModifyOrReadOnlyPermission.has_permission m u =
        AdminModifyOrReadOnlyPermission.has_permission m v) ∧
    ("email" ∈ UserSerializer.fields ∧ "role" ∈ UserSerializer.fields) := by
  refine ⟨?_, ?_, ?_, by decide, by decide⟩
  · intro m u hm
    simp [AdminModifyOrReadOnlyPermission.has_permission, hm]
  · intro m u hu
    simp [AdminModifyOrReadOnlyPermission.has_permission, hu]
  · intro m u v huv
    simp [AdminModifyOrReadOnlyPermission.has_permission, huv]

/-- C10 witness: an anonymous GET passes the `/users/` permission, and an
authenticated plain-role PATCH passes it too. -/
theorem users_permission_shape_witness :
    AdminModifyOrReadOnlyPermission.has_permission Method.GET
      ⟨false, UserRole.user, false, 0⟩ = true ∧
    AdminModifyOrReadOnlyPermission.has_permission Method.PATCH
      ⟨true, UserRole.user, false, 4⟩ = true := by
  constructor
  · exact users_permission_shape.1 Method.GET ⟨false, UserRole.user, false, 0⟩ (by decide)
  · exact users_permission_shape.2.1 Method.PATCH ⟨true, UserRole.user, false, 4⟩ rfl

/- Helper lemmas about the pending-code list. -/

/-- Filtering cannot create a match: if no element of `l` satisfies `p`,
none of `l.filter q` does. -/
theorem any_filter_eq_false {α : Type} (p q : α → Bool) (l : List α)
    (h : l.any p = false) : (l.filter q).any p = false := by
  rw [List.any_eq_false] at h ⊢
  intro x hx
  exact h x (List.mem_filter.mp hx).1

/-- Filtering cannot increase the number of matches. -/
theorem countP_filter_le {α : Type} (p q : α → Bool) (l : List α) :
    (l.filter q).countP p ≤ l.countP p := by
  induction l with
  | nil => simp
  | cons a l ih =>
    by_cases hq : q a = true
    · rw [List.filter_cons_of_pos hq]
      by_cases hp : p a = true
      · rw [List.countP_cons_of_pos _ _ hp, List.countP_cons_of_pos _ _ hp]
        omega
      · rw [List.countP_cons_of_neg _ _ (by simp [hp]),
          List.countP_cons_of_neg _ _ (by simp [hp])]
        exact ih
    · rw [List.filter_cons_of_neg (by simp [hq])]
      by_cases hp : p a = true
      · rw [List.countP_cons_of_pos _ _ hp]
        omega
      · rw [List.countP_cons_of_neg _ _ (by simp [hp])]
        exact ih

/-- When a list holds at most one match of `p`, erasing the first match
leaves no match at all. -/
theorem eraseP_any_eq_false {α : Type} (p : α → Bool) (l : List α)
    (h : l.countP p ≤ 1) : (l.eraseP p).any p = false := by
  induction l with
  | nil => simp
  | cons a l ih =>
    by_cases hp : p a = true
    · rw [List.eraseP_cons_of_pos hp]
      rw [List.countP_cons_of_pos _ _ hp] at h
      rw [List.any_eq_false]
      exact List.countP_eq_zero.mp (by omega)
    · rw [List.eraseP_cons_of_neg (by simp [hp])]
      rw [List.countP_cons_of_neg _ _ (by simp [hp])] at h
      simp only [List.any_cons, hp, Bool.false_or]
      exact ih h

/-- C2 counterexample: an accepted signup for `bob@x.com`, then a second
signup with the same email 60 seconds later (well before the 5-minute
expiry).  The claim says the second call is accepted and replaces the code;
the code rejects it with a `ValidationError`
(`ConfirmEmailSerializer.validate_email`). -/
theorem second_signup_rejected_example :
    (confirm_email ⟨[], []⟩ 0 "bob" "bob@x.com" "code1" true).1 =
      SignupResult.ok "bob" "bob@x.com" ∧
    (confirm_email (confirm_email ⟨[], []⟩ 0 "bob" "bob@x.com" "code1" true).2
        60 "carol" "bob@x.com" "code2" true).1 = SignupResult.validationError := by
  constructor
  · rfl
  · rfl

/-- C2 amended: a second `RequestSignup` with an email that still has a live
pending code is rejected with `ValidationError` and leaves the code ledger
unchanged apart from the lazy expiry purge — the prior pending code is kept
in place (still the one that redeems), not replaced. -/
theorem second_signup_rejected (s : AuthState) (now : Nat) (u e c : String)
    (mailOk : Bool)
    (hlive : (purgeExpired s.codes now).any (fun r => r.email == e) = true) :
    (confirm_email s now u e c mailOk).1 = SignupResult.validationError ∧
    (confirm_email s now u e c mailOk).2 =
      { users := s.users, codes := purgeExpired s.codes now } := by
  unfold confirm_email
  by_cases h1 : (u == "me" || s.users.any (fun x => x.username == u)) = true
  · simp [h1]
  · simp only [Bool.not_eq_true] at h1
    simp [h1, hlive]

/-- C2 amended, witness: the rejection evaluated on a store holding the live
code issued to `bob@x.com` at time 0, re-requested at time 60. -/
theorem second_signup_rejected_witness :
    (confirm_email ⟨[⟨"bob", "bob@x.com"⟩], [⟨"bob", "bob@x.com", "code1", 300⟩]⟩
        60 "carol" "bob@x.com" "code2" true).1 = SignupResult.validationError ∧
    (confirm_email ⟨[⟨"bob", "bob@x.com"⟩], [⟨"bob", "bob@x.com", "code1", 300⟩]⟩
        60 "carol" "bob@x.com" "code2" true).2 =
      { users := [⟨"bob", "bob@x.com"⟩],
        codes := purgeExpired [⟨"bob", "bob@x.com", "code1", 300⟩] 60 } :=
  second_signup_rejected ⟨[⟨"bob", "bob@x.com"⟩], [⟨"bob", "bob@x.com", "code1", 300⟩]⟩
    60 "carol" "bob@x.com" "code2" true (by decide)

/-- C3 counterexample: a fresh signup whose outbound mail fails.  The claim
says the failure is swallowed (200 returned) and the pending record is still
stored; the code raises the mail exception to the caller and never reaches
`serializer.save`, so no pending record exists. -/
theorem mail_failure_surfaces_example :
    (confirm_email ⟨[], []⟩ 0 "bob" "bob@x.com" "code1" false).1 =
      SignupResult.mailException ∧
    (confirm_email ⟨[], []⟩ 0 "bob" "bob@x.com" "code1" false).2.codes = [] := by
  constructor
  · rfl
  · rfl

/-- C3 amended: when the outbound notification fails during an otherwise
valid signup, the failure propagates to the caller (no success response) and
the pending confirmation record is never stored — the code ledger keeps only
the purge's survivors — while the eagerly created account row does persist. -/
theorem mail_failure_not_swallowed (s : AuthState) (now : Nat) (u e c : String)
    (h1 : (u == "me" || s.users.any (fun x => x.username == u)) = false)
    (h2 : ((purgeExpired s.codes now).any (fun r => r.email == e)
        || s.users.any (fun x => x.email == e)) = false) :
    confirm_email s now u e c false =
      (SignupResult.mailException,
        { users := s.users ++ [⟨u, e⟩], codes := purgeExpired s.codes now }) := by
  unfold confirm_email
  simp [h1, h2]

/-- C3 amended, witness: the mail-failure outcome evaluated on the empty
store. -/
theorem mail_failure_not_swallowed_witness :
    confirm_email ⟨[], []⟩ 0 "bob" "bob@x.com" "code1" false =
      (SignupResult.mailException,
        { users := ([] : List UserRow) ++ [⟨"bob", "bob@x.com"⟩],
          codes := purgeExpired [] 0 }) :=
  mail_failure_not_swallowed ⟨[], []⟩ 0 "bob" "bob@x.com" "code1"
    (by decide) (by decide)

/-- C4: a confirmation code is single-use.  When the user exists, a live
`(username, code)` match is present and — as the issuing flow guarantees via
per-email uniqueness and fresh random codes — the store holds at most one
matching row, the first `RedeemCode` returns a token and deletes the pending
row (no match remains), and a replay with the same `(username, code)` at any
later time fails with `ValidationError` and leaves the account store
unchanged. -/
theorem code_single_use (s : AuthState) (now now2 : Nat) (u c : String)
    (hu : s.users.any (fun x => x.username == u) = true)
    (hc : (purgeExpired s.codes now).any
        (fun r => r.username == u && r.confirm_code == c) = true)
    (hcount : s.codes.countP
        (fun r => r.username == u && r.confirm_code == c) ≤ 1) :
    (get_token s now u c).1 = TokenResult.token u ∧
    (get_token s now u c).2.codes.any
        (fun r => r.username == u && r.confirm_code == c) = false ∧
    (get_token (get_token s now u c).2 now2 u c).1 = TokenResult.invalid ∧
    (get_token (get_token s now u c).2 now2 u c).2.users = s.users := by
  have h1 : get_token s now u c =
      (TokenResult.token u,
        { users := s.users,
          codes := (purgeExpired s.codes now).eraseP
            (fun r => r.username == u && r.confirm_code == c) }) := by
    unfold get_token
    simp [hu, hc]
  have hgone : ((purgeExpired s.codes now).eraseP
      (fun r => r.username == u && r.confirm_code == c)).any
      (fun r => r.username == u && r.confirm_code == c) = false := by
    apply eraseP_any_eq_false
    exact le_trans (countP_filter_le _ _ _) hcount
  have hgone2 : (purgeExpired ((purgeExpired s.codes now).eraseP
      (fun r => r.username == u && r.confirm_code == c)) now2).any
      (fun r => r.username == u && r.confirm_code == c) = false :=
    any_filter_eq_false _ _ _ hgone
  refine ⟨by rw [h1], by rw [h1]; exact hgone, ?_, ?_⟩
  · rw [h1]
    unfold get_token
    simp [hu, hgone2]
  · rw [h1]
    unfold get_token
    simp [hu, hgone2]

/-- C4 witness: the single-use property evaluated on a store holding `bob`'s
account and one live code, redeemed at time 10 and replayed at time 20. -/
theorem code_single_use_witness :
    (get_token ⟨[⟨"bob", "bob@x.com"⟩], [⟨"bob", "bob@x.com", "code1", 300⟩]⟩
        10 "bob" "code1").1 = TokenResult.token "bob" ∧
    (get_token ⟨[⟨"bob", "bob@x.com"⟩], [⟨"bob", "bob@x.com", "code1", 300⟩]⟩
        10 "bob" "code1").2.codes.any
        (fun r => r.username == "bob" && r.confirm_code == "code1") = false ∧
    (get_token (get_token ⟨[⟨"bob", "bob@x.com"⟩],
        [⟨"bob", "bob@x.com", "code1", 300⟩]⟩ 10 "bob" "code1").2
        20 "bob" "code1").1 = TokenResult.invalid ∧
    (get_token (get_token ⟨[⟨"bob", "bob@x.com"⟩],
        [⟨"bob", "bob@x.com", "code1", 300⟩]⟩ 10 "bob" "code1").2
        20 "bob" "code1").2.users = [⟨"bob", "bob@x.com"⟩] :=
  code_single_use ⟨[⟨"bob", "bob@x.com"⟩], [⟨"bob", "bob@x.com", "code1", 300⟩]⟩
    10 20 "bob" "code1" (by decide) (by decide) (by decide)

/-- C5: a pending confirmation whose `expire_date` is at or before the
current time can never redeem — every row matching `(username, code)` being
expired, `get_token` issues no token, whether or not any earlier sweep ran:
the purge at the head of `get_token` itself removes the row before the match
is checked. -/
theorem expired_code_rejected (s : AuthState) (now : Nat) (u c : String)
    (hexp : ∀ r ∈ s.codes, (r.username == u && r.confirm_code == c) = true →
      r.expire_date ≤ now) :
    ((get_token s now u c).1).isToken = false := by
  have hma : (purgeExpired s.codes now).any
      (fun r => r.username == u && r.confirm_code == c) = false := by
    rw [List.any_eq_false]
    intro r hr hp
    obtain ⟨hmem, hkeep⟩ := List.mem_filter.mp hr
    have hle := hexp r hmem hp
    have hlt : now < r.expire_date := of_decide_eq_true hkeep
    omega
  unfold get_token
  by_cases h : s.users.any (fun x => x.username == u) = true
  · simp [h, hma, TokenResult.isToken]
  · simp only [Bool.not_eq_true] at h
    simp [h, TokenResult.isToken]

/-- C5 witness: a code that expired exactly at the current time (no sweep ran
between issuing and this call) does not redeem. -/
theorem expired_code_rejected_witness :
    ((get_token ⟨[⟨"bob", "bob@x.com"⟩], [⟨"bob", "bob@x.com", "code1", 100⟩]⟩
        100 "bob" "code1").1).isToken = false :=
  expired_code_rejected ⟨[⟨"bob", "bob@x.com"⟩], [⟨"bob", "bob@x.com", "code1", 100⟩]⟩
    100 "bob" "code1" (by decide)

/-- `reviews/models.py` lines 154-186: a `Review` row; `Review.Meta` declares
`UniqueConstraint(fields=['author', 'title'], name='unique_review')`. -/
structure Review where
  author : Nat
  title : Nat
  text : String
  score : Nat
deriving DecidableEq, Repr

/-- Outcome of `POST /titles/{title_id}/reviews/`. -/
inductive CreateResult
  | created
  | badRequest (msg : String)
deriving DecidableEq, Repr

/-- `api/views.py` lines 123-142 (`ReviewViewSet.create` / `perform_create`):
`serializer.save(title=..., author=...)` inserts the row; the store's
`unique_review` constraint raises `IntegrityError` when a row with the same
`(author, title)` already exists, which the view catches and maps to a
400 response, leaving the store unchanged. -/
def ReviewViewSet.create (rs : List Review) (r : Review) : CreateResult × List Review :=
  if rs.any (fun x => x.author == r.author && x.title == r.title) then
    (CreateResult.badRequest "Only one review per title", rs)
  else
    (CreateResult.created, rs ++ [r])

/-- C8: the `(author, title)` uniqueness invariant.  A create against a store
already holding a review by that author for that title is answered with the
user-facing 400 conflict response and leaves the store unchanged; and after
any create, a second create by the same author for the same title is a
conflict that never adds a second row. -/
theorem unique_review_conflict :
    (∀ (rs : List Review) (r : Review),
      rs.any (fun x => x.author == r.author && x.title == r.title) = true →
      ReviewViewSet.create rs r =
        (CreateResult.badRequest "Only one review per title", rs)) ∧
    (∀ (rs : List Review) (r r2 : Review),
      r2.author = r.author → r2.title = r.title →
      (ReviewViewSet.create (ReviewViewSet.create rs r).2 r2).1 =
        CreateResult.badRequest "Only one review per title" ∧
      (ReviewViewSet.create (ReviewViewSet.create rs r).2 r2).2 =
        (ReviewViewSet.create rs r).2) := by
  constructor
  · intro rs r h
    simp [ReviewViewSet.create, h]
  · intro rs r r2 ha ht
    by_cases h : rs.any (fun x => x.author == r.author && x.title == r.title) = true
    · simp [ReviewViewSet.create, h, ha, ht]
    · simp only [Bool.not_eq_true] at h
      simp [ReviewViewSet.create, h, ha, ht, List.any_append]

/-- C8 witness: author 1 reviews title 7 into an empty store, then tries
again; the second attempt is the 400 conflict and the store still holds one
row. -/
theorem unique_review_conflict_witness :
    (ReviewViewSet.create (ReviewViewSet.create [] ⟨1, 7, "good", 8⟩).2
        ⟨1, 7, "again", 9⟩).1 =
      CreateResult.badRequest "Only one review per title" ∧
    (ReviewViewSet.create (ReviewViewSet.create [] ⟨1, 7, "good", 8⟩).2
        ⟨1, 7, "again", 9⟩).2 =
      (ReviewViewSet.create [] ⟨1, 7, "good", 8⟩).2 :=
  unique_review_conflict.2 [] ⟨1, 7, "good", 8⟩ ⟨1, 7, "again", 9⟩ rfl rfl

/-- `api/views.py` lines 201-204 with `api/serializers.py` line 117: the
title's rating as the API reads it — the per-request annotation
`Avg('reviews__score')` (`NULL`, hence `null` in the response, when the title
has no reviews) serialized through `IntegerField.to_representation`, i.e.
Python `int()`, which truncates the mean; all scores are positive so this is
floor, `Nat` division. -/
def rating_read (scores : List Nat) : Option Nat :=
  match scores with
  | [] => none
  | _ :: _ => some (scores.sum / scores.length)

/-- Modelled from the spec's words, as the refinement comparator for the
rating claim: `rating = round(mean(scores))`, absent when there are no
reviews. -/
def rating_spec (scores : List Nat) : Option Int :=
  match scores with
  | [] => none
  | _ :: _ => some (round ((scores.sum : ℚ) / (scores.length : ℚ)))

/-- Scores of the reviews of one title, read from the current review store at
request time (the `reviews__score` join behind the annotation). -/
def title_scores (rs : List Review) (t : Nat) : List Nat :=
  (rs.filter (fun r => r.title == t)).map (fun r => r.score)

/-- The rating field `TitleViewSet` serves for title `t` against review
store `rs`. -/
def TitleViewSet.rating (rs : List Review) (t : Nat) : Option Nat :=
  rating_read (title_scores rs t)

/-- C9 counterexample: a title with scores `[1, 2, 2]` (mean 5/3).  The claim
says the served rating is `round(5/3) = 2`; the code truncates and serves
`1`. -/
theorem rating_truncates_example :
    rating_read [1, 2, 2] = some 1 ∧
    rating_spec [1, 2, 2] = some 2 ∧
    (rating_read [1, 2, 2]).map (fun n => (n : Int)) ≠ rating_spec [1, 2, 2] := by
  refine ⟨rfl, ?_, ?_⟩
  · show some (round ((5 : ℚ) / 3)) = some 2
    norm_num [round_eq]
  · show some ((1 : Int)) ≠ some (round ((5 : ℚ) / 3))
    norm_num [round_eq]

/-- C9 amended: the served rating is the truncated (floor) mean of the
title's review scores, absent when there are none; this agrees with the
spec's `round` exactly when the mean is an integer (as in the `[8, 10] → 9`
scenario), and it is recomputed from the live review store on every read, so
a newly appended review is reflected immediately. -/
theorem rating_truncated_mean :
    rating_read [8, 10] = some 9 ∧
    rating_read [] = none ∧
    (∀ scores : List Nat, scores ≠ [] →
      rating_read scores = some (scores.sum / scores.length)) ∧
    (∀ scores : List Nat, scores ≠ [] → scores.length ∣ scores.sum →
      rating_spec scores = some ((scores.sum / scores.length : Nat) : Int)) ∧
    (∀ (rs : List Review) (t : Nat) (r : Review), r.title = t →
      TitleViewSet.rating (rs ++ [r]) t =
        rating_read (title_scores rs t ++ [r.score])) := by
  refine ⟨rfl, rfl, ?_, ?_, ?_⟩
  · intro scores hne
    cases scores with
    | nil => exact absurd rfl hne
    | cons a l => rfl
  · intro scores hne hdvd
    obtain ⟨k, hk⟩ := hdvd
    have hlen : scores.length ≠ 0 := by
      cases scores with
      | nil => exact absurd rfl hne
      | cons a l => simp
    have hq : ((scores.sum : ℚ) / (scores.length : ℚ)) = (k : ℚ) := by
      have hne0 : (scores.length : ℚ) ≠ 0 := Nat.cast_ne_zero.mpr hlen
      rw [hk]
      push_cast
      field_simp
    have hnat : scores.sum / scores.length = k := by
      rw [hk]
      exact Nat.mul_div_cancel_left k (Nat.pos_of_ne_zero hlen)
    cases scores with
    | nil => exact absurd rfl hne
    | cons a l =>
      show some (round ((((a :: l).sum : ℚ)) / (((a :: l).length : ℚ)))) = _
      rw [hq, hnat, round_natCast]
  · intro rs t r hr
    unfold TitleViewSet.rating title_scores
    rw [List.filter_append, List.map_append]
    simp [hr]

/-- C9 amended, witness: the truncated mean evaluated at `[2, 3]`, and the
round-agreement evaluated at the spec's own `[8, 10]` scenario. -/
theorem rating_truncated_mean_witness :
    rating_read [2, 3] = some ([2, 3].sum / [2, 3].length) ∧
    rating_spec [8, 10] = some ((([8, 10].sum / [8, 10].length : Nat)) : Int) :=
  ⟨rating_truncated_mean.2.2.1 [2, 3] (by decide),
   rating_truncated_mean.2.2.2.1 [8, 10] (by decide) (by decide)⟩
